import Mathlib

/-!
Shallow embedding of `src/GLSLprimer.c` (a GLFW/OpenGL teaching program) and
proofs about the claims of its specification.

Conventions of the embedding:
* C `GLfloat` values are modelled as rationals (`ℚ`); the numeric facts proved
  here use only values that are exactly representable in single-precision
  floating point, so they transfer to the C program.
* A C `GLfloat[16]` column-major 4x4 matrix is modelled either as
  `Fin 16 → ℚ` (when the code manipulates individual array slots, as
  `setupViewport` does) or as a mathematical matrix `Matrix (Fin 4) (Fin 4) ℚ`
  (when the code only ever passes whole matrices to the multiplication
  helper).
* Calls into external libraries (GLFW, OpenGL, libm) are modelled as events in
  a trace, or as abstract parameters (the trigonometric functions).
-/

namespace GLSLprimer

/-- A 4x4 matrix of scalars. The C program stores such a matrix as a
column-major `GLfloat[16]`; here we use the mathematical matrix, so the
C array slot `m[4*col+row]` is the entry `M row col`. -/
abbrev Mat4 := Matrix (Fin 4) (Fin 4) ℚ

/-- Modelled from the spec: `mat4mult(A, B, C)` (declared in `tnm084.h`, not
part of `src/`) is one of the "matrix math primitives" the spec lists as an
external collaborator with the conventional signature "multiply 4x4
matrices": it stores the product `A · B` in `C` (using an internal temporary,
so output may alias an input). -/
def mat4mult (A B : Mat4) : Mat4 := A * B

/-- Modelled from the spec: `mat4rotx(M, a)` (declared in `tnm084.h`, not part
of `src/`) fills `M` with the standard rotation about the x axis by angle `a`
radians. Since libm's `cos`/`sin` are external and irrational, the matrix is
parameterised directly by the cosine `c` and sine `s` of the angle. -/
def mat4rotx (c s : ℚ) : Mat4 :=
  Matrix.of ![![1, 0, 0, 0], ![0, c, -s, 0], ![0, s, c, 0], ![0, 0, 0, 1]]

/-- Modelled from the spec: `mat4roty(M, a)` (declared in `tnm084.h`, not part
of `src/`) fills `M` with the standard rotation about the y axis by angle `a`
radians, parameterised by the cosine `c` and sine `s` of the angle. -/
def mat4roty (c s : ℚ) : Mat4 :=
  Matrix.of ![![c, 0, s, 0], ![0, 1, 0, 0], ![-s, 0, c, 0], ![0, 0, 0, 1]]

/-- `GLSLprimer.c` lines 161-166: the fixed translation matrix `Tz`, written
in the C file as a column-major array whose fourth column is
`(0, 0, -5, 1)`, i.e. the translation by `(0, 0, -5)`. -/
def Tz : Mat4 :=
  Matrix.of ![![1, 0, 0, 0], ![0, 1, 0, 0], ![0, 0, 1, -5], ![0, 0, 0, 1]]

/-- The rotator state consumed by the render loop (`pollRotator.h`): the two
accumulated angles, in degrees (`rotator.phi` is the azimuth, `rotator.theta`
the elevation). Pointer position and button state do not enter the matrix
computation and are omitted here. -/
structure Rotator where
  phi : ℚ
  theta : ℚ
deriving DecidableEq, Repr

/-- The mutable matrix slots of `main` that the per-frame model-view update
writes: the temporaries `R1`, `R2` (lines 155-156) and the model-view matrix
`MV` (line 152). -/
structure MatState where
  R1 : Mat4
  R2 : Mat4
  MV : Mat4

/-- `GLSLprimer.c` lines 230-234, the per-frame model-view recomputation:

    mat4roty(R1, rotator.phi * M_PI/180.0);
    mat4rotx(R2, rotator.theta * M_PI/180.0);
    mat4mult(R2, R1, MV);
    mat4mult(Tz, MV, MV);

`cosr` and `sinr` abstract libm's `cos` and `sin` (external), and `degToRad`
abstracts the multiplication by `M_PI/180.0` performed on line 231-232 (the
factor `π/180` is irrational, hence abstract). The previous contents of
`R1`, `R2` and `MV` in `s` are completely overwritten. -/
def frameMatStep (cosr sinr degToRad : ℚ → ℚ) (s : MatState) (rot : Rotator) :
    MatState :=
  let _ := s
  let R1 := mat4roty (cosr (degToRad rot.phi)) (sinr (degToRad rot.phi))
  let R2 := mat4rotx (cosr (degToRad rot.theta)) (sinr (degToRad rot.theta))
  let MV1 := mat4mult R2 R1
  let MV2 := mat4mult Tz MV1
  { R1 := R1, R2 := R2, MV := MV2 }

/-- `GLSLprimer.c` lines 73-85:

    void setupViewport(GLFWwindow* window, GLfloat *P) {
        int width, height;
        glfwGetWindowSize( window, &width, &height );
        P[0] = P[5]*height/width;
        glViewport( 0, 0, width, height );
    }

The window size read back from GLFW is passed in as `width`/`height`. The
expression `P[5]*height/width` associates as `(P[5]*height)/width` in C; the
division is by the (float-promoted) window width with no guard, so a zero
width makes the divisor zero: this is modelled by returning `none` (float
division by zero yields a non-finite value). On success the result is `P`
with slot 0 overwritten and every other slot unchanged. The `glViewport`
call is an external side effect carrying no data back. -/
def setupViewport (P : Fin 16 → ℚ) (width height : ℤ) : Option (Fin 16 → ℚ) :=
  if (width : ℚ) = 0 then none
  else some (Function.update P 0 (P 5 * (height : ℚ) / (width : ℚ)))

/-- `GLSLprimer.c` lines 172-177: the initial perspective projection matrix
`P`, as the column-major array literal

    { 4.0, 0, 0, 0,  0, 4.0, 0, 0,  0, 0, -2.5, -1.0,  0, 0, -10.5, 0 }. -/
def Pinit : Fin 16 → ℚ :=
  ![4, 0, 0, 0, 0, 4, 0, 0, 0, 0, -5/2, -1, 0, 0, -21/2, 0]

/-- `GLSLprimer.c` lines 59-68 (non-Apple build, so `PATH` is the empty
string): the compile-time texture file path. -/
def TEXTUREFILENAME : String := "../textures/earth2048.tga"

/-- `GLSLprimer.c` line 66: the compile-time mesh file path. -/
def MESHFILENAME : String := "../meshes/trex.obj"

/-- `GLSLprimer.c` line 67: the compile-time vertex shader source path. -/
def VERTEXSHADERFILENAME : String := "../shaders/vertexshader.glsl"

/-- `GLSLprimer.c` line 68: the compile-time fragment shader source path. -/
def FRAGMENTSHADERFILENAME : String := "../shaders/fragmentshader.glsl"

/-- A GPU uniform-upload call issued by the per-frame update (the matrix
payloads are irrelevant to which calls are made, so only locations and the
integer argument of `glUniform1i` are recorded). -/
inductive GLCall where
  | uniform1i (loc : ℤ) (value : ℤ)
  | uniform1f (loc : ℤ)
  | uniformMatrix4fv (loc : ℤ)
deriving DecidableEq

/-- The four cached uniform locations of `main` (`GLSLprimer.c` line 97),
filled in on lines 194-197 from `glGetUniformLocation`; `-1` is OpenGL's
sentinel for a uniform absent from the linked program. -/
structure Locations where
  location_MV : ℤ
  location_P : ℤ
  location_time : ℤ
  location_tex : ℤ
deriving DecidableEq

/-- The four uniforms the render loop updates. -/
inductive Uniform where
  | tex
  | time
  | mv
  | p
deriving DecidableEq

/-- The cached location the loop uses for each uniform. -/
def locationOf (L : Locations) : Uniform → ℤ
  | Uniform.tex => L.location_tex
  | Uniform.time => L.location_time
  | Uniform.mv => L.location_MV
  | Uniform.p => L.location_P

/-- `GLSLprimer.c` lines 220-222, 225-228, 238-240 and 243-245: the guarded
per-frame update of each uniform, as the list of GPU calls it issues.
Each update is the same shape in the source:

    if ( location_X != -1 ) { glUniform...( location_X, ... ); }

so a `-1` location issues no call at all and the frame continues normally
(no error path exists). -/
def uniformUpdateCalls (L : Locations) : Uniform → List GLCall
  | Uniform.tex =>
      if L.location_tex ≠ -1 then [GLCall.uniform1i L.location_tex 0] else []
  | Uniform.time =>
      if L.location_time ≠ -1 then [GLCall.uniform1f L.location_time] else []
  | Uniform.mv =>
      if L.location_MV ≠ -1 then [GLCall.uniformMatrix4fv L.location_MV] else []
  | Uniform.p =>
      if L.location_P ≠ -1 then [GLCall.uniformMatrix4fv L.location_P] else []

/-- An observable step of `main`: each constructor marks the execution of one
statement (or one tight group of statements) of `GLSLprimer.c`, in
particular every call into the external GLFW/OpenGL/loader collaborators.
The `called` flag on the uniform-update events records whether the guarded
GPU call was actually issued (location valid) or skipped (location `-1`). -/
inductive Event where
  | printMsg (msg : String)
  | glfwTerminateEv
  | destroyWindowEv
  | makeContextCurrentEv
  | swapIntervalEv (interval : ℤ)
  | loadExtensionsEv
  | printInfoEv
  | soupInitEv
  | soupCreateSphereEv (radius : ℚ) (segments : ℕ)
  | soupReadOBJEv (path : String)
  | soupPrintInfoEv
  | enableTexture2DEv
  | createTextureEv (path : String)
  | createShaderEv (vertexPath fragmentPath : String)
  | getUniformLocationEv (name : String)
  | computeFPSEv
  | clearColorEv
  | clearEv
  | setupViewportEv
  | pollRotatorEv
  | useProgramEv (program : ℕ)
  | updTexEv (called : Bool)
  | updTimeEv (called : Bool)
  | computeMVEv
  | updMVEv (called : Bool)
  | updPEv (called : Bool)
  | enableDepthEv
  | enableCullEv
  | cullBackEv
  | drawEv
  | swapBuffersEv
  | pollEventsEv
  | deleteProgramEv (program : ℕ)
  | setWindowShouldCloseEv
deriving DecidableEq

/-- `GLSLprimer.c` lines 134-197: everything the successful initialization
path does after the window exists and before the render loop starts, in
source order. Note line 181: the mesh is built by
`soupCreateSphere(&myShape, 1.0, 50)`; the `soupReadOBJ(&myShape,
MESHFILENAME)` call on line 182 is commented out, so no mesh-file read
event appears. The four `glGetUniformLocation` calls are lines 194-197. -/
def startupEvents : List Event :=
  [Event.makeContextCurrentEv,                                    -- line 134
   Event.swapIntervalEv 0,                                        -- line 138
   Event.loadExtensionsEv,                                        -- line 144
   Event.printInfoEv,                                             -- lines 146-149
   Event.soupInitEv,                                              -- line 180
   Event.soupCreateSphereEv 1 50,                                 -- line 181
   Event.soupPrintInfoEv,                                         -- line 183
   Event.enableTexture2DEv,                                       -- line 186
   Event.createTextureEv TEXTUREFILENAME,                         -- line 188
   Event.createShaderEv VERTEXSHADERFILENAME FRAGMENTSHADERFILENAME, -- 191
   Event.getUniformLocationEv "MV",                               -- line 194
   Event.getUniformLocationEv "P",                                -- line 195
   Event.getUniformLocationEv "time",                             -- line 196
   Event.getUniformLocationEv "tex"]                              -- line 197

/-- The mutable state of `main` that the control flow of the render loop
reads or writes: the current shader program handle, the four cached uniform
locations, and the GLFW window-should-close flag. (`nextProgram` models the
fresh handle the external `createShader` collaborator returns at the next
reload.) The matrices and rotator are handled by `frameMatStep` and
`setupViewport` above; they do not influence control flow. -/
structure MainState where
  program : ℕ
  nextProgram : ℕ
  location_MV : ℤ
  location_P : ℤ
  location_time : ℤ
  location_tex : ℤ
  shouldClose : Bool
deriving DecidableEq

/-- `GLSLprimer.c` lines 200-275: one iteration of the render loop, as the
events it emits (in source order) and the state it leaves behind. `space`
and `esc` are the key states `glfwGetKey` reports this frame. The reload
branch (lines 266-269) deletes the current program and installs the handle
returned by `createShader`; the escape branch (lines 272-274) sets the
window-should-close flag. -/
def frameRun (space esc : Bool) (s : MainState) : MainState × List Event :=
  let loopEvents : List Event :=
    [Event.computeFPSEv,                                -- line 203
     Event.clearColorEv,                                -- line 206
     Event.clearEv,                                     -- line 207
     Event.setupViewportEv,                             -- line 210
     Event.pollRotatorEv,                               -- line 213
     Event.useProgramEv s.program,                      -- line 217
     Event.updTexEv (s.location_tex != -1),             -- lines 220-222
     Event.updTimeEv (s.location_time != -1),           -- lines 225-228
     Event.computeMVEv,                                 -- lines 230-234
     Event.updMVEv (s.location_MV != -1),               -- lines 238-240
     Event.updPEv (s.location_P != -1),                 -- lines 243-245
     Event.enableDepthEv,                               -- line 248
     Event.enableCullEv,                                -- line 249
     Event.cullBackEv,                                  -- line 250
     Event.drawEv,                                      -- line 254
     Event.useProgramEv 0,                              -- line 257
     Event.swapBuffersEv,                               -- line 260
     Event.pollEventsEv]                                -- line 263
  let s1 :=
    if space then
      { s with program := s.nextProgram, nextProgram := s.nextProgram + 1 }
    else s
  let reloadEvents : List Event :=
    if space then
      [Event.deleteProgramEv s.program,                 -- line 267
       Event.createShaderEv VERTEXSHADERFILENAME FRAGMENTSHADERFILENAME] -- 268
    else []
  let s2 := if esc then { s1 with shouldClose := true } else s1
  let escEvents : List Event :=
    if esc then [Event.setWindowShouldCloseEv] else []  -- line 273
  (s2, loopEvents ++ reloadEvents ++ escEvents)

/-- `GLSLprimer.c` line 200: the render loop `while
(!glfwWindowShouldClose(window))`, driven by the per-frame key states the
environment reports. The input list ends when the user closes the window
from the window system; the loop also stops by itself once the
should-close flag has been set (ESC). -/
def loopRun : List (Bool × Bool) → MainState → MainState × List Event
  | [], s => (s, [])
  | (space, esc) :: rest, s =>
    if s.shouldClose then (s, [])
    else
      let fr := frameRun space esc s
      let lr := loopRun rest fr.1
      (lr.1, fr.2 ++ lr.2)

/-- `GLSLprimer.c` `main`, lines 111-283, as exit status plus event trace.
`glfwInitOk` and `windowOk` are the results of the external `glfwInit`
(line 111) and `glfwCreateWindow` (line 126) calls; `s` carries the handles
and uniform locations the external collaborators return during
initialization. On `glfwInit` failure: print and `return -1` (lines
112-113). On window failure: print, `glfwTerminate()`, `return -1` (lines
129-131). Otherwise run the loop, then `glfwDestroyWindow`,
`glfwTerminate`, `return 0` (lines 278-282). -/
def mainRun (glfwInitOk windowOk : Bool) (frames : List (Bool × Bool))
    (s : MainState) : ℤ × List Event :=
  if !glfwInitOk then
    (-1, [Event.printMsg "Failed to initialise GLFW. Exiting."])
  else if !windowOk then
    (-1, [Event.printMsg "Failed to open GLFW window. Exiting.",
          Event.glfwTerminateEv])
  else
    (0, startupEvents ++ (loopRun frames s).2 ++
          [Event.destroyWindowEv, Event.glfwTerminateEv])

/-- Recognises the viewport-update event. -/
def isSetupViewportEv : Event → Bool
  | Event.setupViewportEv => true
  | _ => false

/-- Recognises the rotator input-poll event. -/
def isPollRotatorEv : Event → Bool
  | Event.pollRotatorEv => true
  | _ => false

/-- Recognises the buffer-clear event. -/
def isClearEv : Event → Bool
  | Event.clearEv => true
  | _ => false

/-- Recognises the texture-unit uniform update event. -/
def isUpdTexEv : Event → Bool
  | Event.updTexEv _ => true
  | _ => false

/-- Recognises the time uniform update event. -/
def isUpdTimeEv : Event → Bool
  | Event.updTimeEv _ => true
  | _ => false

/-- Recognises the model-view recomputation event. -/
def isComputeMVEv : Event → Bool
  | Event.computeMVEv => true
  | _ => false

/-- Recognises the model-view uniform update event. -/
def isUpdMVEv : Event → Bool
  | Event.updMVEv _ => true
  | _ => false

/-- Recognises the projection uniform update event. -/
def isUpdPEv : Event → Bool
  | Event.updPEv _ => true
  | _ => false

/-- Recognises the draw-call event. -/
def isDrawEv : Event → Bool
  | Event.drawEv => true
  | _ => false

/-- Recognises the buffer-swap event. -/
def isSwapBuffersEv : Event → Bool
  | Event.swapBuffersEv => true
  | _ => false

/-- Recognises the event-poll (`glfwPollEvents`) event. -/
def isPollEventsEv : Event → Bool
  | Event.pollEventsEv => true
  | _ => false

/-- Recognises a shader-program deletion event. -/
def isDeleteProgramEv : Event → Bool
  | Event.deleteProgramEv _ => true
  | _ => false

/-- Recognises a shader-compilation request event. -/
def isCreateShaderEv : Event → Bool
  | Event.createShaderEv _ _ => true
  | _ => false

/-- Recognises the set-window-should-close event. -/
def isSetWindowShouldCloseEv : Event → Bool
  | Event.setWindowShouldCloseEv => true
  | _ => false

/-- Recognises a mesh-file (`soupReadOBJ`) load event, for any path. -/
def isSoupReadOBJEv : Event → Bool
  | Event.soupReadOBJEv _ => true
  | _ => false

/-- Recognises any uniform-location query event. -/
def isGetUniformLocationEv : Event → Bool
  | Event.getUniformLocationEv _ => true
  | _ => false

/-- Recognises the uniform-location query for the given uniform name. -/
def isGetLocNamed (name : String) : Event → Bool
  | Event.getUniformLocationEv n => n == name
  | _ => false

/-- Position of the first event matching `p` inside the trace of one frame. -/
def framePos (p : Event → Bool) (space esc : Bool) (s : MainState) : ℕ :=
  ((frameRun space esc s).2).findIdx p

/-- Number of `glDeleteProgram` calls in a trace. -/
def deleteProgramCount (es : List Event) : ℕ := es.countP isDeleteProgramEv

/-- Number of shader-compilation requests in a trace. -/
def createShaderCount (es : List Event) : ℕ := es.countP isCreateShaderEv

/-- Number of press edges (transitions from released to pressed) in a
per-frame key-state sequence, starting from the given previous state. -/
def pressEdgesFrom : Bool → List Bool → ℕ
  | _, [] => 0
  | prev, b :: rest => (if b && !prev then 1 else 0) + pressEdgesFrom b rest

/-- Number of press edges in a key-state sequence, the key initially up. -/
def pressEdges (l : List Bool) : ℕ := pressEdgesFrom false l

/-- A concrete post-initialization state: program handle 1, all four uniform
locations valid, window not closing. -/
def s0 : MainState :=
  { program := 1, nextProgram := 2, location_MV := 0, location_P := 1,
    location_time := 2, location_tex := 3, shouldClose := false }

end GLSLprimer

namespace GLSLprimer

/-- C1: each frame, the model-view matrix is built as
`Translation(0,0,-5) × RotationX(elevation) × RotationY(azimuth)`, in that
composition order, where the elevation is the rotator's `theta` and the
azimuth the rotator's `phi`, each converted from degrees to radians before
the trigonometric functions are applied. -/
theorem frameMV_composition (cosr sinr degToRad : ℚ → ℚ) (s : MatState)
    (rot : Rotator) :
    (frameMatStep cosr sinr degToRad s rot).MV =
      mat4mult
        (mat4mult Tz
          (mat4rotx (cosr (degToRad rot.theta)) (sinr (degToRad rot.theta))))
        (mat4roty (cosr (degToRad rot.phi)) (sinr (degToRad rot.phi))) := by
  simp only [frameMatStep, mat4mult]
  exact (Matrix.mul_assoc _ _ _).symm

/-- C7: the per-frame model-view recomputation is a pure function of the
current rotator state: from any two prior contents of the matrix slots
(`R1`, `R2`, `MV`), running the update with the same rotator angles produces
identical model-view matrices — there is no hidden accumulation across
frames. -/
theorem frameMV_pure (cosr sinr degToRad : ℚ → ℚ) (s₁ s₂ : MatState)
    (rot : Rotator) :
    (frameMatStep cosr sinr degToRad s₁ rot).MV =
      (frameMatStep cosr sinr degToRad s₂ rot).MV := rfl

/-- C2: for every window size with positive width and height, `setupViewport`
succeeds and sets `P[0]` to `P[5]*height/width` while leaving `P[5]` (and
every other slot but `P[0]`) unchanged. -/
theorem setupViewport_aspect (P : Fin 16 → ℚ) (width height : ℤ)
    (hw : 0 < width) (_hh : 0 < height) :
    ∃ Q, setupViewport P width height = some Q ∧
      Q 0 = P 5 * (height : ℚ) / (width : ℚ) ∧ Q 5 = P 5 := by
  have hw0 : ((width : ℚ)) ≠ 0 := by
    exact_mod_cast hw.ne.symm
  refine ⟨Function.update P 0 (P 5 * (height : ℚ) / (width : ℚ)), ?_, ?_, ?_⟩
  · simp [setupViewport, hw0]
  · simp
  · have h5 : (5 : Fin 16) ≠ 0 := by decide
    exact Function.update_noteq h5 _ P

/-- Witness for C2, including the end-to-end instance from the spec: with the
program's initial projection matrix (`P[5] = 4.0`) and an 800×400 window, the
viewport update sets `P[0] = 2.0` and keeps `P[5] = 4.0`. -/
theorem setupViewport_aspect_witness :
    (0 : ℤ) < 800 ∧ (0 : ℤ) < 400 ∧
      ∃ Q, setupViewport Pinit 800 400 = some Q ∧ Q 0 = 2 ∧ Q 5 = 4 := by
  refine ⟨by norm_num, by norm_num, ?_⟩
  obtain ⟨Q, hQ, h0, h5⟩ :=
    setupViewport_aspect Pinit 800 400 (by norm_num) (by norm_num)
  refine ⟨Q, hQ, ?_, ?_⟩
  · rw [h0]
    norm_num [show Pinit 5 = 4 from rfl]
  · rw [h5]
    exact rfl

/-- C6 counterexample: the claim that the aspect-ratio computation is guarded
against a zero divisor is false — with a reported width of 0 (and the
program's initial projection matrix), `setupViewport` divides by zero
(modelled as `none`); no guard exists in the source. -/
theorem setupViewport_zero_width_divides :
    setupViewport Pinit 0 400 = none := by
  simp [setupViewport]

/-- C6 amended: `setupViewport` performs the division unconditionally, so it
divides by zero exactly when the reported window width is 0; for every
nonzero width (height arbitrary, including 0) the computation is
well-defined. -/
theorem setupViewport_divzero_iff (P : Fin 16 → ℚ) (width height : ℤ) :
    (setupViewport P width height).isSome ↔ width ≠ 0 := by
  constructor
  · intro h hw
    subst hw
    simp [setupViewport] at h
  · intro hw
    have : ((width : ℚ)) ≠ 0 := by exact_mod_cast hw
    simp [setupViewport, this]

/-- C3: the per-frame update of each of the four uniforms is performed only
when its cached location is valid: a `-1` sentinel location makes the update
issue zero GPU calls — the guard skips it silently, the update function
returns normally with no error path. -/
theorem uniform_update_skips_invalid (L : Locations) (u : Uniform)
    (h : locationOf L u = -1) : uniformUpdateCalls L u = [] := by
  cases u <;> simp [uniformUpdateCalls, locationOf] at h ⊢ <;> simp [h]

/-- Witness for C3: with every cached location equal to the `-1` sentinel,
the time uniform's update issues no GPU call. -/
theorem uniform_update_skips_invalid_witness :
    locationOf ⟨-1, -1, -1, -1⟩ Uniform.time = -1 ∧
      uniformUpdateCalls ⟨-1, -1, -1, -1⟩ Uniform.time = [] :=
  ⟨rfl, uniform_update_skips_invalid ⟨-1, -1, -1, -1⟩ Uniform.time rfl⟩

/-- C4: the process exit status is `0` on a normal exit, which happens after
destroying the window and terminating GLFW, and `-1` with a diagnostic
console message when GLFW initialization or window creation fails (the
window-creation failure also terminates GLFW before exiting). -/
theorem mainRun_exit_codes (frames : List (Bool × Bool)) (s : MainState)
    (b : Bool) :
    mainRun false b frames s =
      (-1, [Event.printMsg "Failed to initialise GLFW. Exiting."]) ∧
    mainRun true false frames s =
      (-1, [Event.printMsg "Failed to open GLFW window. Exiting.",
            Event.glfwTerminateEv]) ∧
    (mainRun true true frames s).1 = 0 ∧
    [Event.destroyWindowEv, Event.glfwTerminateEv] <:+
      (mainRun true true frames s).2 := by
  refine ⟨by cases b <;> rfl, rfl, rfl, ?_⟩
  exact ⟨startupEvents ++ (loopRun frames s).2, by
    simp [mainRun, List.append_assoc]⟩

/-- Per-frame counts: one iteration of the render loop deletes the shader
program and requests a recompilation exactly once if SPACE is reported
down, and not at all otherwise; it never queries a uniform location. -/
theorem frameRun_counts (space esc : Bool) (s : MainState) :
    deleteProgramCount (frameRun space esc s).2 = (if space then 1 else 0) ∧
    createShaderCount (frameRun space esc s).2 = (if space then 1 else 0) ∧
    ((frameRun space esc s).2).countP isGetUniformLocationEv = 0 := by
  cases space <;> cases esc <;> exact of_decide_eq_true rfl

/-- A frame with ESC not pressed leaves the window-should-close flag as it
was. -/
theorem frameRun_shouldClose (space : Bool) (s : MainState) :
    ((frameRun space false s).1).shouldClose = s.shouldClose := by
  cases space <;> rfl

/-- C5 counterexample: the reload hot-key is not edge-triggered. Holding
SPACE for two consecutive frames is a single keypress edge, yet the loop
destroys the old program and requests a recompilation twice — once per
frame the key is held, not once per edge. -/
theorem reload_not_edge_triggered :
    pressEdges [true, true] = 1 ∧
    deleteProgramCount ((loopRun [(true, false), (true, false)] s0).2) = 2 ∧
    createShaderCount ((loopRun [(true, false), (true, false)] s0).2) = 2 := by
  decide

/-- C5 amended: the reload hot-key is level-triggered. In every run of the
loop (ESC never pressed, loop not already closing), the old shader program
is destroyed exactly once and exactly one recompilation is requested per
frame in which SPACE is reported held down — i.e. the counts equal the
number of frames with the key down, not the number of keypress edges. -/
theorem reload_level_triggered (frames : List (Bool × Bool)) (s : MainState)
    (hclose : s.shouldClose = false) (hesc : ∀ f ∈ frames, f.2 = false) :
    deleteProgramCount ((loopRun frames s).2) =
      (frames.map Prod.fst).count true ∧
    createShaderCount ((loopRun frames s).2) =
      (frames.map Prod.fst).count true := by
  induction frames generalizing s with
  | nil => simp [loopRun, deleteProgramCount, createShaderCount]
  | cons f rest ih =>
    obtain ⟨sp, esc⟩ := f
    have hesc0 : esc = false := hesc (sp, esc) (List.mem_cons_self _ _)
    subst hesc0
    have hrest : ∀ g ∈ rest, g.2 = false := fun g hg =>
      hesc g (List.mem_cons_of_mem _ hg)
    have hc : ((frameRun sp false s).1).shouldClose = false := by
      rw [frameRun_shouldClose]; exact hclose
    obtain ⟨ihd, ihc⟩ := ih (frameRun sp false s).1 hc hrest
    obtain ⟨hd, hcr, -⟩ := frameRun_counts sp false s
    constructor
    · simp only [loopRun, hclose, Bool.false_eq_true, if_false,
        deleteProgramCount, List.countP_append]
      simp only [deleteProgramCount] at ihd hd
      rw [hd, ihd, List.map_cons, List.count_cons]
      cases sp <;> simp [Nat.add_comm]
    · simp only [loopRun, hclose, Bool.false_eq_true, if_false,
        createShaderCount, List.countP_append]
      simp only [createShaderCount] at ihc hcr
      rw [hcr, ihc, List.map_cons, List.count_cons]
      cases sp <;> simp [Nat.add_comm]

/-- Witness for C5 amended: over two frames with SPACE held (key down twice,
one keypress edge), exactly two deletions and two recompilations occur. -/
theorem reload_level_triggered_witness :
    s0.shouldClose = false ∧
    deleteProgramCount ((loopRun [(true, false), (true, false)] s0).2) = 2 ∧
    createShaderCount ((loopRun [(true, false), (true, false)] s0).2) = 2 := by
  obtain ⟨h1, h2⟩ :=
    reload_level_triggered [(true, false), (true, false)] s0 rfl (by decide)
  exact ⟨rfl, h1, h2⟩

/-- C8 counterexample: the claimed per-frame order "poll input and update
rotation state before recomputing viewport/projection" is false: in the
frame trace (here from the concrete state `s0`, no hot-keys pressed), the
`setupViewport` call precedes the rotator input poll. -/
theorem frame_order_claim_false :
    ¬ (framePos isPollRotatorEv false false s0 <
        framePos isSetupViewportEv false false s0) := by
  decide

/-- C8 amended: in every iteration of the render loop the order is: clear
buffers, then recompute viewport/projection, then poll input and update the
rotation state, then push the texture-unit and time uniforms, then
recompute the model-view matrix, then push the model-view and projection
uniforms, then draw, then swap buffers, then process window events, and
finally check the hot-keys (on SPACE: delete the program then recompile; on
ESC: request close). -/
theorem frame_order_corrected (space esc : Bool) (s : MainState) :
    framePos isClearEv space esc s < framePos isSetupViewportEv space esc s ∧
    framePos isSetupViewportEv space esc s <
      framePos isPollRotatorEv space esc s ∧
    framePos isPollRotatorEv space esc s < framePos isUpdTexEv space esc s ∧
    framePos isUpdTexEv space esc s < framePos isUpdTimeEv space esc s ∧
    framePos isUpdTimeEv space esc s < framePos isComputeMVEv space esc s ∧
    framePos isComputeMVEv space esc s < framePos isUpdMVEv space esc s ∧
    framePos isUpdMVEv space esc s < framePos isUpdPEv space esc s ∧
    framePos isUpdPEv space esc s < framePos isDrawEv space esc s ∧
    framePos isDrawEv space esc s < framePos isSwapBuffersEv space esc s ∧
    framePos isSwapBuffersEv space esc s <
      framePos isPollEventsEv space esc s ∧
    (space = true →
      framePos isPollEventsEv space esc s <
          framePos isDeleteProgramEv space esc s ∧
        framePos isDeleteProgramEv space esc s <
          framePos isCreateShaderEv space esc s) ∧
    (esc = true →
      framePos isPollEventsEv space esc s <
        framePos isSetWindowShouldCloseEv space esc s) := by
  cases space <;> cases esc <;> exact of_decide_eq_true rfl

/-- Witness for C8 amended: in a frame from the concrete state `s0` with
both hot-keys pressed, clearing precedes the viewport update, event
processing precedes the program deletion, and it precedes the close
request. -/
theorem frame_order_corrected_witness :
    framePos isClearEv true true s0 < framePos isSetupViewportEv true true s0 ∧
    framePos isPollEventsEv true true s0 <
      framePos isDeleteProgramEv true true s0 ∧
    framePos isPollEventsEv true true s0 <
      framePos isSetWindowShouldCloseEv true true s0 := by
  obtain ⟨h1, h2, h3, h4, h5, h6, h7, h8, h9, h10, h11, h12⟩ :=
    frame_order_corrected true true s0
  exact ⟨h1, (h11 rfl).1, h12 rfl⟩

/-- C9 counterexample: the program does not load its rendered mesh from the
compile-time mesh path: no `soupReadOBJ` event (for the configured path or
any other) occurs at startup — the OBJ load on line 182 is commented out. -/
theorem startup_mesh_not_from_file :
    Event.soupReadOBJEv MESHFILENAME ∉ startupEvents ∧
    startupEvents.all (fun e => !(isSoupReadOBJEv e)) = true := by
  decide

/-- C9 amended: at startup the rendered mesh is built procedurally by
`soupCreateSphere` (radius 1.0, 50 segments); no mesh file is read (the
configured mesh path is unused), while the texture and the two shader
sources are loaded from their compile-time-configured paths. -/
theorem startup_assets :
    Event.soupCreateSphereEv 1 50 ∈ startupEvents ∧
    startupEvents.countP isSoupReadOBJEv = 0 ∧
    Event.createTextureEv TEXTUREFILENAME ∈ startupEvents ∧
    Event.createShaderEv VERTEXSHADERFILENAME FRAGMENTSHADERFILENAME ∈
      startupEvents := by
  decide

/-- No iteration of the render loop ever queries a uniform location. -/
theorem loopRun_no_getloc (frames : List (Bool × Bool)) (s : MainState) :
    ((loopRun frames s).2).countP isGetUniformLocationEv = 0 := by
  induction frames generalizing s with
  | nil => simp [loopRun]
  | cons f rest ih =>
    obtain ⟨sp, esc⟩ := f
    cases hc : s.shouldClose
    · obtain ⟨-, -, hg⟩ := frameRun_counts sp esc s
      simp [loopRun, hc, List.countP_append, hg, ih]
    · simp [loopRun, hc]

/-- C10: the four cached uniform locations are queried exactly once each,
during startup (before the render loop), and no loop iteration ever
re-queries or modifies them — in particular the SPACE reload path replaces
the program handle but leaves all four cached locations exactly as they
were, so they still describe the original program's uniform layout. -/
theorem uniform_locations_cached_once (space esc : Bool) (s : MainState)
    (frames : List (Bool × Bool)) (s₂ : MainState) :
    ((frameRun space esc s).1.location_MV = s.location_MV ∧
     (frameRun space esc s).1.location_P = s.location_P ∧
     (frameRun space esc s).1.location_time = s.location_time ∧
     (frameRun space esc s).1.location_tex = s.location_tex) ∧
    (startupEvents.countP (isGetLocNamed "MV") = 1 ∧
     startupEvents.countP (isGetLocNamed "P") = 1 ∧
     startupEvents.countP (isGetLocNamed "time") = 1 ∧
     startupEvents.countP (isGetLocNamed "tex") = 1) ∧
    ((loopRun frames s₂).2).countP isGetUniformLocationEv = 0 := by
  refine ⟨?_, ⟨rfl, rfl, rfl, rfl⟩, loopRun_no_getloc frames s₂⟩
  cases space <;> cases esc <;> exact ⟨rfl, rfl, rfl, rfl⟩

end GLSLprimer
